import Mathlib

/-!
Verification of the `brokoli` user-account domain core: value objects
(`Email`, `Password`, `Hash`) and the `ApplicationError` taxonomy with its
validation-failure flattening, shallowly embedded from
`src/domain/sharedkernel/{email,password,error}.rs`.

Strings are Lean `String`s; the validator crate counts length in characters
(`chars().count()`), which is `String.data.length` here.  External
dependencies (the `sha512_crypt` primitive, the validator crate's email
regex) are abstracted as parameters or modelled from the spec, as noted on
each definition.
-/

namespace Brokoli

/-! ## ApplicationError (`error.rs`) -/

-- Definisi status error (error.rs lines 28-37)
inductive ApplicationErrorStatus where
  | InternalServerError
  | UnauthorizedError
  | ForbiddenError
  | BadRequestError
  | NotFoundError
  | TooManyRequestError
  | ValidationError
deriving DecidableEq, Repr

/-- The error struct of `error.rs` lines 40-50.  `code` is a `u16` in Rust;
all codes produced by the program are small constants, so `Nat` is a faithful
carrier.  The serde attributes (`skip_serializing` on `status` and `code`,
`skip_serializing_if Option.isNone` on `fields`) are embedded separately in
`ApplicationError.wire`. -/
structure ApplicationError where
  status : ApplicationErrorStatus
  code : Nat
  error : String
  description : String
  fields : Option (List (String × List String))
deriving DecidableEq

/-- The generator behind the six fixed-error macros (`error.rs` lines
123-179).  Each generated macro has three arms: `()` (both options `none`),
`(description)` (custom description, default tag) and
`(description, error)` (both custom); every arm sets `fields` to `None`. -/
def application_error_function (status : ApplicationErrorStatus) (code : Nat)
    (default_error : String) (default_description : String)
    (description : Option String) (error : Option String) : ApplicationError :=
  { status := status
    code := code
    error := error.getD default_error
    description := description.getD default_description
    fields := none }

/-- `internal_server_error!` (`error.rs` lines 182-188). -/
def internal_server_error : Option String → Option String → ApplicationError :=
  application_error_function .InternalServerError 500 "internal_server_error"
    "It\x27s not you. We are experiencing technical difficulties. Please try again later."

/-- `unauthorized_error!` (`error.rs` lines 189-195). -/
def unauthorized_error : Option String → Option String → ApplicationError :=
  application_error_function .UnauthorizedError 401 "unauthorized"
    "Sorry, but you need to authenticate to access this resource."

/-- `forbidden_error!` (`error.rs` lines 196-202). -/
def forbidden_error : Option String → Option String → ApplicationError :=
  application_error_function .ForbiddenError 403 "forbidden"
    "Sorry, but you are not allowed to access this resource."

/-- `bad_request_error!` (`error.rs` lines 203-209). -/
def bad_request_error : Option String → Option String → ApplicationError :=
  application_error_function .BadRequestError 400 "bad_request"
    "Sorry, but your input is not like we are expected. Please try again."

/-- `not_found_error!` (`error.rs` lines 210-216); note code 400, not 404. -/
def not_found_error : Option String → Option String → ApplicationError :=
  application_error_function .NotFoundError 400 "not_found"
    "Sorry, but we can\x27t find resource you are looking for."

/-- `too_many_request_error!` (`error.rs` lines 217-223). -/
def too_many_request_error : Option String → Option String → ApplicationError :=
  application_error_function .TooManyRequestError 429 "too_many_request"
    "Sorry, it seems you are trying too many request. Please relax a little and try again later."

/-! ## Validation-failure tree (validator crate data reaching `error.rs`) -/

/-- One `validator::ValidationError`: a rule `code` plus its parameter map.
The parameters are only ever rendered through Rust's `{:?}` (Debug)
formatter in `error.rs`, so `params` carries that Debug rendering as an
opaque string. -/
structure FieldError where
  code : String
  params : String
deriving DecidableEq

/-- `validator::ValidationErrorsKind`: the three node kinds of a failure
tree.  `Struct` holds a nested tree (a map field-name to kind, embedded as
an association list in iteration order); `List` holds a map index to nested
tree (a `BTreeMap<usize, _>` in Rust, again an association list here). -/
inductive VKind where
  | fieldK : List FieldError → VKind
  | structK : List (String × VKind) → VKind
  | listK : List (Nat × List (String × VKind)) → VKind

/-- `validator::ValidationErrors`: the top-level map field-name to kind, in
iteration order. -/
abbrev ValidationErrors := List (String × VKind)

/-- `validator::ValidationErrors::field_errors`: keeps only the
`Field`-kind entries of a tree, dropping `Struct` and `List` entries. -/
def field_errors (ve : ValidationErrors) : List (String × List FieldError) :=
  ve.filterMap fun e =>
    match e.snd with
    | VKind.fieldK fes => some (e.fst, fes)
    | _ => none

/-- Rust's `{:?}` (Debug) rendering of a `String`: the text between double
quotes, with quotes and backslashes escaped (`char::escape_debug`; the
strings rendered here contain no control or non-ASCII characters, whose
escapes coincide with identity only off this code path). -/
def rust_debug_str (s : String) : String :=
  "\"" ++ String.join (s.data.map fun c =>
    if c = '"' then "\\\""
    else if c = '\\' then "\\\\"
    else String.singleton c) ++ "\""

/-- `validation_errs_to_str_vec` (`error.rs` lines 100-114): one string per
`Field`-kind entry of the tree, in the format
`\x7b"<field>": errors: <code>: <params>, ...\x7d`. -/
def validation_errs_to_str_vec (ve : ValidationErrors) : List String :=
  (field_errors ve).map fun fe =>
    "\x7b\"" ++ fe.fst ++ "\": errors: " ++
      String.intercalate ", " (fe.snd.map fun v => v.code ++ ": " ++ v.params) ++ "\x7d"

/-- The leaf rendering of a single `(rule_code, parameters)` pair used for
`Field`-kind entries in `ApplicationError::validate` (`error.rs` line 72):
`format!("\x7b\x7b\"\x7b\x7d\": \x7b:?\x7d\x7d\x7d", fe.code, fe.params)`. -/
def field_error_render (fe : FieldError) : String :=
  "\x7b\"" ++ fe.code ++ "\": " ++ fe.params ++ "\x7d"

/-- The per-kind rendering performed inside `ApplicationError::validate`
(`error.rs` lines 66-84): `Struct` goes through
`validation_errs_to_str_vec`, `Field` renders one string per error pair,
`List` renders one string per element as
`<index>: <Debug of the " | "-join of the nested descriptions>`. -/
def render_kind : VKind → List String
  | VKind.structK struct_err => validation_errs_to_str_vec struct_err
  | VKind.fieldK field_errs => field_errs.map field_error_render
  | VKind.listK vec_errs =>
      vec_errs.map fun ve =>
        toString ve.fst ++ ": " ++
          rust_debug_str (String.intercalate " | " (validation_errs_to_str_vec ve.snd))

/-- `ApplicationError::validate` (`error.rs` lines 57-96).  The validator
derive machinery is external; a validated object is represented by its
validation outcome `object.validate().err()`: `none` on success, otherwise
`some` of the failure tree.  On failure every entry of the tree is mapped
to its rendered string list and the fixed ValidationError envelope is
produced. -/
def ApplicationError.validate (validation_outcome : Option ValidationErrors) :
    Option ApplicationError :=
  match validation_outcome with
  | none => none
  | some errs =>
      some
        { status := .ValidationError
          code := 400
          error := "invalid_input"
          description := "Please check your input"
          fields := some (errs.map fun e => (e.fst, render_kind e.snd)) }

/-! Amended rendering (for the flattening claim): the same three formats the
code actually produces, written as direct recursions to compare against
`render_kind`.  A struct failure is flattened one level only — just the
nested tree's `Field`-kind entries are rendered, one string per nested
field with an `errors:` header, and deeper `Struct`/`List` entries are
dropped. -/

/-- One-level flattening of a nested tree per the amended description. -/
def amended_struct_flatten : List (String × VKind) → List String
  | [] => []
  | (name, VKind.fieldK fes) :: rest =>
      ("\x7b\"" ++ name ++ "\": errors: " ++
        String.intercalate ", " (fes.map fun v => v.code ++ ": " ++ v.params) ++ "\x7d")
        :: amended_struct_flatten rest
  | (_, VKind.structK _) :: rest => amended_struct_flatten rest
  | (_, VKind.listK _) :: rest => amended_struct_flatten rest

/-- The amended per-kind rendering: field failures one string per pair;
struct failures one string per nested `Field`-kind entry (one level, others
dropped); list failures `<index>: ` followed by the Debug-quoted
`" | "`-join of the element's one-level flattening. -/
def amended_render_kind : VKind → List String
  | VKind.fieldK fes => fes.map field_error_render
  | VKind.structK t => amended_struct_flatten t
  | VKind.listK ves =>
      ves.map fun ve =>
        toString ve.fst ++ ": " ++
          rust_debug_str (String.intercalate " | " (amended_struct_flatten ve.snd))

/-- The failure tree of the spec's aggregation example: fields `id` (too
short), `email` (malformed), `age` (below range), each a plain field
failure. -/
def example_reg_errs : ValidationErrors :=
  [("id", VKind.fieldK [{ code := "length", params := "\x7b\"min\": Number(16.0)\x7d" }]),
   ("email", VKind.fieldK [{ code := "email", params := "\x7b\x7d" }]),
   ("age", VKind.fieldK [{ code := "range", params := "\x7b\"min\": Number(17.0)\x7d" }])]

/-- The serialized (wire) value of one member. -/
inductive WireValue where
  | str : String → WireValue
  | strMap : List (String × List String) → WireValue
deriving DecidableEq

/-- The serde-derived wire form of `ApplicationError` (`error.rs` lines
40-50): members in declaration order, `status` and `code` skipped
(`skip_serializing`), `fields` present only when `Some`
(`skip_serializing_if = "Option::is_none"`). -/
def ApplicationError.wire (e : ApplicationError) : List (String × WireValue) :=
  [("error", WireValue.str e.error), ("description", WireValue.str e.description)] ++
    (match e.fields with
     | none => []
     | some m => [("fields", WireValue.strMap m)])

/-! ## Email (`email.rs`) -/

/-- The email value object (`email.rs` lines 6-10). -/
structure Email where
  value : String
deriving DecidableEq

/-- `Email::from` (`email.rs` lines 14-18; `from` is a Lean keyword). -/
def Email.fromStr (value : String) : Email :=
  { value := value }

/-- Modelled from the spec: the `#[validate(email)]` check is performed by
the external validator crate, whose source is not under `src/`.  Per §4.1
the shape check is `local-part@domain` with at least one dot in the domain
and no embedded whitespace; strings without an `@` or without a
domain-with-dot are rejected. -/
def Email.validate (e : Email) : Bool :=
  e.value.data.contains '@' &&
    !(e.value.data.takeWhile (fun c => c != '@')).isEmpty &&
    ((e.value.data.dropWhile (fun c => c != '@')).tail.contains '.') &&
    e.value.data.all (fun c => !c.isWhitespace)

/-- `Email`'s `Deserialize` impl (`email.rs` lines 42-50): the result of
`String::deserialize` is wrapped unchanged, with no validation. -/
def Email.deserialize (s : Except String String) : Except String Email :=
  match s with
  | .ok v => .ok { value := v }
  | .error err => .error err

/-! ## Password (`password.rs`) -/

/-- Rust `char::is_ascii`: code point at most 0x7F. -/
def is_ascii (c : Char) : Bool := decide (c.toNat ≤ 127)

/-- ASCII lowercase letter, `'a'` (97) to `'z'` (122): what Rust's
`char::is_lowercase` recognises on the ASCII alphabetic range, the only
range on which `validate_pass` consults it. -/
def is_ascii_lower (c : Char) : Bool := decide (97 ≤ c.toNat ∧ c.toNat ≤ 122)

/-- ASCII uppercase letter, `'A'` (65) to `'Z'` (90): Rust
`char::is_uppercase` on the ASCII alphabetic range. -/
def is_ascii_upper (c : Char) : Bool := decide (65 ≤ c.toNat ∧ c.toNat ≤ 90)

/-- ASCII digit, `'0'` (48) to `'9'` (57): Rust `char::is_numeric` on the
ASCII range. -/
def is_ascii_digit (c : Char) : Bool := decide (48 ≤ c.toNat ∧ c.toNat ≤ 57)

/-- Rust `char::is_alphabetic` on the ASCII range: a letter of either
case. -/
def is_ascii_alpha (c : Char) : Bool := is_ascii_lower c || is_ascii_upper c

/-- ASCII non-alphanumeric: the characters the `validate_pass` loop counts
as special. -/
def is_ascii_special (c : Char) : Bool :=
  is_ascii c && !is_ascii_alpha c && !is_ascii_digit c

/-- The four flags accumulated by the `validate_pass` loop
(`password.rs` lines 16-19). -/
structure PassFlags where
  has_lower : Bool
  has_upper : Bool
  has_number : Bool
  has_special : Bool
deriving DecidableEq

/-- One iteration of the `for c in passw.chars()` loop of `validate_pass`
(`password.rs` lines 21-35), with the same branch structure: non-ASCII
characters are skipped entirely; ASCII alphabetic characters set the lower
or upper flag; ASCII numeric characters set the number flag; every other
ASCII character sets the special flag. -/
def pass_step (f : PassFlags) (c : Char) : PassFlags :=
  if is_ascii c then
    if is_ascii_alpha c then
      if is_ascii_lower c then { f with has_lower := true }
      else if is_ascii_upper c then { f with has_upper := true }
      else f
    else if is_ascii_digit c then { f with has_number := true }
    else { f with has_special := true }
  else f

/-- `validate_pass` (`password.rs` lines 15-42) as a boolean: `true` iff
the custom rule accepts (the Rust function returns `Ok(())` iff all four
flags are set after the loop). -/
def validate_pass (passw : String) : Bool :=
  let f := passw.data.foldl pass_step
    { has_lower := false, has_upper := false, has_number := false, has_special := false }
  f.has_lower && f.has_upper && f.has_number && f.has_special

/-- The password value object (`password.rs` lines 8-12). -/
structure Password where
  value : String
deriving DecidableEq

/-- `Password::from` (`password.rs` lines 51-55; `from` is a Lean
keyword). -/
def Password.fromStr (value : String) : Password :=
  { value := value }

/-- `Password`'s derived `validate`: the field carries
`#[validate(length(min = 8, max = 18), custom = "validate_pass")]`, so
validation succeeds iff the character count is within `[8, 18]` (the
validator crate measures `chars().count()`) and `validate_pass` accepts. -/
def Password.validate (p : Password) : Bool :=
  (decide (8 ≤ p.value.data.length) && decide (p.value.data.length ≤ 18)) &&
    validate_pass p.value

/-- `Password`'s `Deserialize` impl (`password.rs` lines 58-66): wraps the
deserialized string unchanged, with no validation. -/
def Password.deserialize (s : Except String String) : Except String Password :=
  match s with
  | .ok v => .ok { value := v }
  | .error err => .error err

/-! ## Hash (`password.rs`) -/

/-- The hash value object (`password.rs` lines 81-84). -/
structure Hash where
  hash : String
deriving DecidableEq

/-- `Hash::new` (`password.rs` lines 88-92): the empty hash. -/
def Hash.new : Hash := { hash := "" }

/-- `Hash::from` (`password.rs` lines 100-104; `from` is a Lean
keyword). -/
def Hash.fromStr (hash : String) : Hash :=
  { hash := hash }

/-- `Hash::from_password` (`password.rs` lines 113-121).  The external
primitive `sha512_crypt::hash_with` is abstracted as the parameter
`hash_with` (key and password text to either a digest string or a
primitive failure); on primitive failure the function returns
`internal_server_error!()`. -/
def Hash.from_password (hash_with : String → String → Except Unit String)
    (key : String) (password : Password) : Except ApplicationError Hash :=
  match hash_with key password.value with
  | .ok result => .ok { hash := result }
  | .error _ => .error (internal_server_error none none)

/-- `Hash::verify_password` (`password.rs` lines 129-134).  The external
primitive `sha512_crypt::verify` is abstracted as the parameter
`prim_verify` (password text and stored hash to match verdict).  An empty
stored hash is rejected with `Err("Hash is empty")` before the primitive
is consulted. -/
def Hash.verify_password (h : Hash) (prim_verify : String → String → Bool)
    (password : Password) : Except String Bool :=
  if h.hash = "" then .error "Hash is empty"
  else .ok (prim_verify password.value h.hash)

/-- `Hash`'s `Deserialize` impl (`password.rs` lines 158-166): wraps the
deserialized string unchanged, with no validation. -/
def Hash.deserialize (s : Except String String) : Except String Hash :=
  match s with
  | .ok v => .ok { hash := v }
  | .error err => .error err

/-! ## Helper lemmas for the password-strength loop -/

/-- One loop step sets each flag exactly when the character falls in the
corresponding ASCII class, and never clears a flag. -/
theorem pass_step_eq (f : PassFlags) (c : Char) :
    pass_step f c =
      { has_lower := f.has_lower || is_ascii_lower c
        has_upper := f.has_upper || is_ascii_upper c
        has_number := f.has_number || is_ascii_digit c
        has_special := f.has_special || is_ascii_special c } := by
  rcases f with ⟨l, u, n, sp⟩
  by_cases hA : is_ascii c = true
  · by_cases hl : is_ascii_lower c = true
    · have hu : is_ascii_upper c = false := by
        simp only [is_ascii_lower, decide_eq_true_eq] at hl
        simp only [is_ascii_upper, decide_eq_false_iff_not]
        omega
      have hd : is_ascii_digit c = false := by
        simp only [is_ascii_lower, decide_eq_true_eq] at hl
        simp only [is_ascii_digit, decide_eq_false_iff_not]
        omega
      simp [pass_step, is_ascii_special, is_ascii_alpha, hA, hl, hu, hd]
    · rw [Bool.not_eq_true] at hl
      by_cases hu : is_ascii_upper c = true
      · have hd : is_ascii_digit c = false := by
          simp only [is_ascii_upper, decide_eq_true_eq] at hu
          simp only [is_ascii_digit, decide_eq_false_iff_not]
          omega
        simp [pass_step, is_ascii_special, is_ascii_alpha, hA, hl, hu, hd]
      · rw [Bool.not_eq_true] at hu
        by_cases hd : is_ascii_digit c = true
        · simp [pass_step, is_ascii_special, is_ascii_alpha, hA, hl, hu, hd]
        · rw [Bool.not_eq_true] at hd
          simp [pass_step, is_ascii_special, is_ascii_alpha, hA, hl, hu, hd]
  · rw [Bool.not_eq_true] at hA
    have hA' : 128 ≤ c.toNat := by
      simp only [is_ascii, decide_eq_false_iff_not] at hA
      omega
    have hl : is_ascii_lower c = false := by
      simp only [is_ascii_lower, decide_eq_false_iff_not]; omega
    have hu : is_ascii_upper c = false := by
      simp only [is_ascii_upper, decide_eq_false_iff_not]; omega
    have hd : is_ascii_digit c = false := by
      simp only [is_ascii_digit, decide_eq_false_iff_not]; omega
    simp [pass_step, is_ascii_special, is_ascii_alpha, hA, hl, hu, hd]

/-- The whole loop computes, for each flag, whether some character of the
string falls in the corresponding ASCII class. -/
theorem pass_foldl_eq (l : List Char) (f : PassFlags) :
    l.foldl pass_step f =
      { has_lower := f.has_lower || l.any is_ascii_lower
        has_upper := f.has_upper || l.any is_ascii_upper
        has_number := f.has_number || l.any is_ascii_digit
        has_special := f.has_special || l.any is_ascii_special } := by
  induction l generalizing f with
  | nil => simp
  | cons c t ih =>
    rw [List.foldl_cons, pass_step_eq, ih]
    simp [Bool.or_assoc]

/-- `validate_pass` accepts iff the string has a character in each of the
four ASCII classes. -/
theorem validate_pass_eq (s : String) :
    validate_pass s =
      (s.data.any is_ascii_lower && s.data.any is_ascii_upper &&
        s.data.any is_ascii_digit && s.data.any is_ascii_special) := by
  unfold validate_pass
  rw [pass_foldl_eq]
  simp

/-! ## Claims -/

/-- C1: `Password.validate` succeeds iff the character count is between 8
and 18 inclusive and the value contains an ASCII lowercase letter, an ASCII
uppercase letter, an ASCII digit and an ASCII non-alphanumeric (special)
character; the concrete spec examples behave as stated, boundary lengths 8
and 18 are accepted when the class rule holds, and a non-ASCII character is
ignored entirely by the classification loop (so it never counts as
special). -/
theorem password_validate_characterization :
    (∀ p : Password, p.validate = true ↔
      (8 ≤ p.value.data.length ∧ p.value.data.length ≤ 18 ∧
        (∃ c ∈ p.value.data, is_ascii_lower c = true) ∧
        (∃ c ∈ p.value.data, is_ascii_upper c = true) ∧
        (∃ c ∈ p.value.data, is_ascii_digit c = true) ∧
        (∃ c ∈ p.value.data, is_ascii_special c = true))) ∧
    (Password.fromStr "mypass").validate = false ∧
    (Password.fromStr "mypassword").validate = false ∧
    (Password.fromStr "MypassworD").validate = false ∧
    (Password.fromStr "MypassworD1234").validate = false ∧
    (Password.fromStr "MypassworD1234!").validate = true ∧
    (Password.fromStr "Aa1!aaaa").validate = true ∧
    (Password.fromStr "Aa1!aaaaaaaaaaaaaa").validate = true ∧
    (∀ (f : PassFlags) (c : Char), is_ascii c = false → pass_step f c = f) := by
  refine ⟨?_, by decide, by decide, by decide, by decide, by decide, by decide, by decide, ?_⟩
  · intro p
    rw [Password.validate, validate_pass_eq]
    simp [List.any_eq_true, and_assoc]
  · intro f c h
    simp [pass_step, h]

/-- Witness for C1: the non-ASCII character U+00E9 leaves the flags
untouched. -/
theorem password_validate_characterization_witness :
    pass_step { has_lower := false, has_upper := false, has_number := false,
                has_special := false } (Char.ofNat 233) =
      { has_lower := false, has_upper := false, has_number := false,
        has_special := false } :=
  password_validate_characterization.2.2.2.2.2.2.2.2 _ _ (by decide)

/-- C2: `Hash.verify_password` returns the distinguishable empty-hash error
exactly when the stored hash is empty (never `Ok` in that case, whatever the
primitive would say); on a non-empty stored hash it always returns `Ok` of
the primitive verdict, so a non-matching password yields `Ok false`, never
an error. -/
theorem verify_password_contract :
    (∀ (prim_verify : String → String → Bool) (p : Password),
        Hash.new.verify_password prim_verify p = .error "Hash is empty") ∧
    (∀ (prim_verify : String → String → Bool) (h : Hash) (p : Password),
        h.hash = "" → h.verify_password prim_verify p = .error "Hash is empty") ∧
    (∀ (prim_verify : String → String → Bool) (h : Hash) (p : Password),
        h.hash ≠ "" → h.verify_password prim_verify p = .ok (prim_verify p.value h.hash)) ∧
    (∀ (prim_verify : String → String → Bool) (h : Hash) (p : Password),
        h.hash ≠ "" → prim_verify p.value h.hash = false →
          h.verify_password prim_verify p = .ok false) := by
  refine ⟨?_, ?_, ?_, ?_⟩
  · intro pv p
    simp [Hash.verify_password, Hash.new]
  · intro pv h p he
    simp [Hash.verify_password, he]
  · intro pv h p hne
    simp [Hash.verify_password, hne]
  · intro pv h p hne hfalse
    simp [Hash.verify_password, hne, hfalse]

/-- Witness for C2: a stored non-empty hash with a rejecting primitive
yields `Ok false`. -/
theorem verify_password_contract_witness :
    (Hash.fromStr "stored").verify_password (fun _ _ => false)
      (Password.fromStr "MypassworD1234!") = .ok false :=
  verify_password_contract.2.2.2 (fun _ _ => false) (Hash.fromStr "stored")
    (Password.fromStr "MypassworD1234!") (by decide) rfl

/-- C3: `ApplicationError.validate` returns `none` on a successful
validation outcome; on a failing outcome it returns `some` of an error with
status `ValidationError`, code 400, tag `invalid_input`, description
`Please check your input`, and a fields mapping whose key list is exactly
the failing fields of the outcome (never a strict subset); in particular an
object failing on `id`, `email` and `age` yields exactly those keys. -/
theorem validate_aggregator_contract :
    (ApplicationError.validate none = none) ∧
    (∀ errs : ValidationErrors, ∃ m,
        ApplicationError.validate (some errs) =
          some { status := .ValidationError, code := 400, error := "invalid_input",
                 description := "Please check your input", fields := some m } ∧
        m.map Prod.fst = errs.map Prod.fst) ∧
    (∃ m, ApplicationError.validate (some example_reg_errs) =
        some { status := .ValidationError, code := 400, error := "invalid_input",
               description := "Please check your input", fields := some m } ∧
        m.map Prod.fst = ["id", "email", "age"]) := by
  refine ⟨rfl, ?_, ?_⟩
  · intro errs
    refine ⟨_, rfl, ?_⟩
    simp [List.map_map]
  · exact ⟨_, rfl, by decide⟩

/-- C4 (spec-modelled email check): strings without an `@`, or whose part
after the `@` contains no dot, or containing whitespace, are rejected;
`harun@digitalsekuriti.id` passes and the bare username `harunasolole`
fails. -/
theorem email_validate_shape :
    (∀ e : Email, e.value.data.contains '@' = false → e.validate = false) ∧
    (∀ e : Email,
        ((e.value.data.dropWhile (fun c => c != '@')).tail.contains '.') = false →
          e.validate = false) ∧
    (∀ e : Email, (∃ c ∈ e.value.data, c.isWhitespace = true) → e.validate = false) ∧
    (Email.fromStr "harun@digitalsekuriti.id").validate = true ∧
    (Email.fromStr "harunasolole").validate = false := by
  refine ⟨?_, ?_, ?_, by decide, by decide⟩
  · intro e h
    simp only [Email.validate, h, Bool.false_and, Bool.and_false]
  · intro e h
    simp only [Email.validate, h, Bool.false_and, Bool.and_false]
  · intro e h
    have hall : e.value.data.all (fun c => !c.isWhitespace) = false := by
      rcases h with ⟨c, hc, hw⟩
      rw [List.all_eq_false]
      exact ⟨c, hc, by simp [hw]⟩
    simp only [Email.validate, hall, Bool.false_and, Bool.and_false]

/-- Witness for C4: a string with no `@` at all is rejected. -/
theorem email_validate_shape_witness :
    (Email.fromStr "plainaddress").validate = false :=
  email_validate_shape.1 (Email.fromStr "plainaddress") (by decide)

/-- C5: each of the six fixed-error constructors supports the three call
shapes; with no arguments it yields exactly the table (code, tag) pair
(including `not_found_error` at code 400) with its default description; a
custom description replaces only the description; a custom tag additionally
replaces only the tag; `fields` is `none` in every shape. -/
theorem fixed_error_constructors :
    (internal_server_error none none =
      { status := .InternalServerError, code := 500, error := "internal_server_error",
        description := "It\x27s not you. We are experiencing technical difficulties. Please try again later.",
        fields := none }) ∧
    (∀ d, internal_server_error (some d) none =
      { status := .InternalServerError, code := 500, error := "internal_server_error",
        description := d, fields := none }) ∧
    (∀ d t, internal_server_error (some d) (some t) =
      { status := .InternalServerError, code := 500, error := t,
        description := d, fields := none }) ∧
    (unauthorized_error none none =
      { status := .UnauthorizedError, code := 401, error := "unauthorized",
        description := "Sorry, but you need to authenticate to access this resource.",
        fields := none }) ∧
    (∀ d, unauthorized_error (some d) none =
      { status := .UnauthorizedError, code := 401, error := "unauthorized",
        description := d, fields := none }) ∧
    (∀ d t, unauthorized_error (some d) (some t) =
      { status := .UnauthorizedError, code := 401, error := t,
        description := d, fields := none }) ∧
    (forbidden_error none none =
      { status := .ForbiddenError, code := 403, error := "forbidden",
        description := "Sorry, but you are not allowed to access this resource.",
        fields := none }) ∧
    (∀ d, forbidden_error (some d) none =
      { status := .ForbiddenError, code := 403, error := "forbidden",
        description := d, fields := none }) ∧
    (∀ d t, forbidden_error (some d) (some t) =
      { status := .ForbiddenError, code := 403, error := t,
        description := d, fields := none }) ∧
    (bad_request_error none none =
      { status := .BadRequestError, code := 400, error := "bad_request",
        description := "Sorry, but your input is not like we are expected. Please try again.",
        fields := none }) ∧
    (∀ d, bad_request_error (some d) none =
      { status := .BadRequestError, code := 400, error := "bad_request",
        description := d, fields := none }) ∧
    (∀ d t, bad_request_error (some d) (some t) =
      { status := .BadRequestError, code := 400, error := t,
        description := d, fields := none }) ∧
    (not_found_error none none =
      { status := .NotFoundError, code := 400, error := "not_found",
        description := "Sorry, but we can\x27t find resource you are looking for.",
        fields := none }) ∧
    (∀ d, not_found_error (some d) none =
      { status := .NotFoundError, code := 400, error := "not_found",
        description := d, fields := none }) ∧
    (∀ d t, not_found_error (some d) (some t) =
      { status := .NotFoundError, code := 400, error := t,
        description := d, fields := none }) ∧
    (too_many_request_error none none =
      { status := .TooManyRequestError, code := 429, error := "too_many_request",
        description := "Sorry, it seems you are trying too many request. Please relax a little and try again later.",
        fields := none }) ∧
    (∀ d, too_many_request_error (some d) none =
      { status := .TooManyRequestError, code := 429, error := "too_many_request",
        description := d, fields := none }) ∧
    (∀ d t, too_many_request_error (some d) (some t) =
      { status := .TooManyRequestError, code := 429, error := t,
        description := d, fields := none }) :=
  ⟨rfl, fun _ => rfl, fun _ _ => rfl, rfl, fun _ => rfl, fun _ _ => rfl,
   rfl, fun _ => rfl, fun _ _ => rfl, rfl, fun _ => rfl, fun _ _ => rfl,
   rfl, fun _ => rfl, fun _ _ => rfl, rfl, fun _ => rfl, fun _ _ => rfl⟩

/-- The one-level flattening used for struct and list failures agrees with
its direct-recursion form. -/
theorem validation_errs_to_str_vec_eq (t : List (String × VKind)) :
    validation_errs_to_str_vec t = amended_struct_flatten t := by
  induction t with
  | nil => rfl
  | cons e rest ih =>
    rcases e with ⟨name, k⟩
    cases k with
    | fieldK fes =>
      simp only [validation_errs_to_str_vec, field_errors, List.filterMap_cons] at ih ⊢
      simp [amended_struct_flatten, ih]
    | structK t2 =>
      simp only [validation_errs_to_str_vec, field_errors, List.filterMap_cons] at ih ⊢
      simp [amended_struct_flatten, ih]
    | listK vs =>
      simp only [validation_errs_to_str_vec, field_errors, List.filterMap_cons] at ih ⊢
      simp [amended_struct_flatten, ih]

/-- C6 counterexample: a struct failure is NOT rendered with the same leaf
rendering as a field failure — the nested pair `(len, P)` under field `x`
comes out as `\x7b"x": errors: len: P\x7d`, not as the leaf rendering
`\x7b"len": P\x7d`. -/
theorem render_struct_not_leaf_rendering :
    render_kind (VKind.structK [("x", VKind.fieldK [{ code := "len", params := "P" }])]) ≠
      [field_error_render { code := "len", params := "P" }] := by
  decide

/-- C6 amended: the flattening renders a field failure as one string per
(rule_code, parameters) pair in the leaf format; a struct failure is
flattened one level only — one string per Field-kind entry of the nested
tree, in the format `\x7b"<field>": errors: <code>: <params>, ...\x7d`,
with deeper Struct/List entries dropped; a list failure becomes one string
per element, `<index>: ` followed by the Debug-quoted join (separator
` | `) of the nested one-level descriptions; order everywhere mirrors the
iteration order of the source tree. -/
theorem render_kind_amended_eq : ∀ k : VKind, render_kind k = amended_render_kind k := by
  intro k
  cases k with
  | fieldK fes => rfl
  | structK t => exact validation_errs_to_str_vec_eq t
  | listK vs =>
    simp [render_kind, amended_render_kind, validation_errs_to_str_vec_eq]

/-- C7: every error produced by this core — any of the six constructors in
any call shape, or `ApplicationError.validate` — has `fields` populated iff
its status is `ValidationError`. -/
theorem fields_iff_validation_status :
    (∀ d t : Option String,
        ((internal_server_error d t).fields.isSome = true ↔
          (internal_server_error d t).status = .ValidationError)) ∧
    (∀ d t : Option String,
        ((unauthorized_error d t).fields.isSome = true ↔
          (unauthorized_error d t).status = .ValidationError)) ∧
    (∀ d t : Option String,
        ((forbidden_error d t).fields.isSome = true ↔
          (forbidden_error d t).status = .ValidationError)) ∧
    (∀ d t : Option String,
        ((bad_request_error d t).fields.isSome = true ↔
          (bad_request_error d t).status = .ValidationError)) ∧
    (∀ d t : Option String,
        ((not_found_error d t).fields.isSome = true ↔
          (not_found_error d t).status = .ValidationError)) ∧
    (∀ d t : Option String,
        ((too_many_request_error d t).fields.isSome = true ↔
          (too_many_request_error d t).status = .ValidationError)) ∧
    (∀ (outcome : Option ValidationErrors) (ae : ApplicationError),
        ApplicationError.validate outcome = some ae →
          (ae.fields.isSome = true ↔ ae.status = .ValidationError)) := by
  refine ⟨?_, ?_, ?_, ?_, ?_, ?_, ?_⟩
  · intro d t
    simp [internal_server_error, application_error_function]
  · intro d t
    simp [unauthorized_error, application_error_function]
  · intro d t
    simp [forbidden_error, application_error_function]
  · intro d t
    simp [bad_request_error, application_error_function]
  · intro d t
    simp [not_found_error, application_error_function]
  · intro d t
    simp [too_many_request_error, application_error_function]
  · intro outcome ae h
    cases outcome with
    | none => exact absurd h (by simp [ApplicationError.validate])
    | some errs =>
      have : ae = { status := .ValidationError, code := 400, error := "invalid_input",
                    description := "Please check your input",
                    fields := some (errs.map fun e => (e.fst, render_kind e.snd)) } := by
        simpa [ApplicationError.validate, eq_comm] using h
      subst this
      simp

/-- Witness for C7: a concrete validation error has populated fields and
status `ValidationError`. -/
theorem fields_iff_validation_status_witness :
    (({ status := .ValidationError, code := 400, error := "invalid_input",
        description := "Please check your input",
        fields := some [("id", ["\x7b\"c\": p\x7d"])] } : ApplicationError).fields.isSome = true ↔
      ({ status := .ValidationError, code := 400, error := "invalid_input",
         description := "Please check your input",
         fields := some [("id", ["\x7b\"c\": p\x7d"])] } : ApplicationError).status =
        .ValidationError) :=
  fields_iff_validation_status.2.2.2.2.2.2
    (some [("id", VKind.fieldK [{ code := "c", params := "p" }])]) _ rfl

/-- C8: the hash round trip as the code realises it — whenever the
abstracted primitive derives a digest for password `p` under key `key`, the
digest is non-empty, and the primitive confirms `p` (and refutes `p2`)
against that digest, then `Hash.from_password` followed by
`Hash.verify_password` yields `Ok true` for `p` and `Ok false` for `p2`.
The probabilistic part lives in the external primitive and is carried here
as the hypotheses. -/
theorem hash_round_trip (hash_with : String → String → Except Unit String)
    (prim_verify : String → String → Bool) (key : String) (p p2 : Password)
    (digest : String)
    (hderive : hash_with key p.value = .ok digest)
    (hne : digest ≠ "")
    (hmatch : prim_verify p.value digest = true)
    (hnomatch : prim_verify p2.value digest = false) :
    ∃ h : Hash, Hash.from_password hash_with key p = .ok h ∧
      h.verify_password prim_verify p = .ok true ∧
      h.verify_password prim_verify p2 = .ok false := by
  refine ⟨{ hash := digest }, ?_, ?_, ?_⟩
  · simp [Hash.from_password, hderive]
  · simp [Hash.verify_password, hne, hmatch]
  · simp [Hash.verify_password, hne, hnomatch]

/-- Witness for C8: a concrete primitive pair realises the round trip. -/
theorem hash_round_trip_witness :
    ∃ h : Hash,
      Hash.from_password (fun _ _ => .ok "digest") "key" (Password.fromStr "Aa1!aaaa") = .ok h ∧
      h.verify_password (fun pw _ => pw == "Aa1!aaaa") (Password.fromStr "Aa1!aaaa") = .ok true ∧
      h.verify_password (fun pw _ => pw == "Aa1!aaaa") (Password.fromStr "Bb2@bbbb") = .ok false :=
  hash_round_trip (fun _ _ => .ok "digest") (fun pw _ => pw == "Aa1!aaaa") "key"
    (Password.fromStr "Aa1!aaaa") (Password.fromStr "Bb2@bbbb") "digest"
    rfl (by decide) (by decide) (by decide)

/-- C9: the wire form of every `ApplicationError` never carries the
`status` or `code` members, always carries `error` and `description`, and
carries `fields` exactly when `fields` is present. -/
theorem wire_shape (e : ApplicationError) :
    "status" ∉ (e.wire.map Prod.fst) ∧
    "code" ∉ (e.wire.map Prod.fst) ∧
    "error" ∈ (e.wire.map Prod.fst) ∧
    "description" ∈ (e.wire.map Prod.fst) ∧
    ("fields" ∈ (e.wire.map Prod.fst) ↔ e.fields.isSome = true) := by
  rcases e with ⟨st, c, err, d, fs⟩
  cases fs <;> simp [ApplicationError.wire]

/-- Witness for C9: the default internal-server error serializes without
status, code or fields. -/
theorem wire_shape_witness :
    "status" ∉ ((internal_server_error none none).wire.map Prod.fst) ∧
    "code" ∉ ((internal_server_error none none).wire.map Prod.fst) ∧
    "error" ∈ ((internal_server_error none none).wire.map Prod.fst) ∧
    "description" ∈ ((internal_server_error none none).wire.map Prod.fst) ∧
    ("fields" ∈ ((internal_server_error none none).wire.map Prod.fst) ↔
      (internal_server_error none none).fields.isSome = true) :=
  wire_shape (internal_server_error none none)

/-- C10: the `Deserialize` impls of `Email`, `Password` and `Hash` perform
no validation — any deserialized string is wrapped exactly as-is, so a
deserialized value may be invalid until `validate` is called. -/
theorem deserialize_no_validation :
    (∀ s, Email.deserialize (.ok s) = .ok { value := s }) ∧
    (∀ s, Password.deserialize (.ok s) = .ok { value := s }) ∧
    (∀ s, Hash.deserialize (.ok s) = .ok { hash := s }) ∧
    ((Email.deserialize (.ok "harunasolole") = .ok (Email.fromStr "harunasolole")) ∧
      (Email.fromStr "harunasolole").validate = false) ∧
    ((Password.deserialize (.ok "short") = .ok (Password.fromStr "short")) ∧
      (Password.fromStr "short").validate = false) ∧
    (Hash.deserialize (.ok "") = .ok Hash.new) :=
  ⟨fun _ => rfl, fun _ => rfl, fun _ => rfl, ⟨rfl, by decide⟩, ⟨rfl, by decide⟩, rfl⟩

end Brokoli
